import Mathlib

/-!
Verification of the Edital-IA ML analysis service (`ml_service/models.py` and
`ml_service/main.py`) against its natural-language specification.

The Python code is shallowly embedded:
- strings are `List Char` (Python `str` is a sequence of code points);
- the `re` module calls are embedded through a small backtracking matcher over
  pattern ASTs transliterated from the regex literals in `_load_patterns`,
  `_extract_organizacao`, `_extract_objeto_licitacao` and
  `_extract_requirements`; every `re.search`/`re.finditer` call in the source
  passes `re.IGNORECASE` (and `re.MULTILINE`, which is irrelevant since no
  pattern uses anchors), so the matcher is case-insensitive throughout, with
  the simple case mapping for ASCII and the Latin-1 letters used by the
  patterns;
- Python exceptions are `Except PyErr`; statements whose exceptions the source
  does not catch are sequenced monadically so that an exception aborts the
  enclosing call, exactly as in Python;
- `decimal.Decimal` values are embedded as `ℚ`, `datetime` values and the
  external `dateparser.parse` are abstracted (the date parser is a parameter,
  invoked only on a capture of a matching date pattern, as in the source);
- the external spaCy model and the Redis client are parameters of the
  analyzer state, mirroring `self.nlp` / `self.redis_client`.
-/

abbrev Str := List Char

/-! ## Python character semantics -/

/-- Python `\s` and `str.strip()` whitespace, restricted to the ASCII
whitespace characters (the only ones the analyzed texts and patterns use). -/
def isPySpace (c : Char) : Bool :=
  c == ' ' || c == '\t' || c == '\n' || c == '\r' || c == '\x0b' || c == '\x0c'

/-- Python `\d`, ASCII decimal digits. -/
def isPyDigit (c : Char) : Bool :=
  '0' ≤ c && c ≤ '9'

/-- Simple lower-case mapping for ASCII and the Latin-1 letters
(U+00C0 to U+00DE except the multiplication sign), which is what Python
`str.lower()` does on every character occurring in the embedded patterns. -/
def pyLower (c : Char) : Char :=
  if 'A' ≤ c && c ≤ 'Z' then Char.ofNat (c.toNat + 32)
  else if 'À' ≤ c && c ≤ 'Þ' && c != '×' then Char.ofNat (c.toNat + 32)
  else c

/-- Simple upper-case mapping, the inverse of `pyLower` on its range. -/
def pyUpper (c : Char) : Char :=
  if 'a' ≤ c && c ≤ 'z' then Char.ofNat (c.toNat - 32)
  else if 'à' ≤ c && c ≤ 'þ' && c != '÷' then Char.ofNat (c.toNat - 32)
  else c

/-- Python `str.lower()` on a whole string. -/
def pyLowerStr (s : Str) : Str := s.map pyLower

/-- Python `str.strip()`: remove leading and trailing whitespace. -/
def pyStrip (s : Str) : Str :=
  ((s.dropWhile isPySpace).reverse.dropWhile isPySpace).reverse

/-- Decimal digit list to natural number, most significant first. -/
def natOfDigits (s : Str) : Nat :=
  s.foldl (fun n c => 10 * n + (c.toNat - 48)) 0

/-- Python `needle in haystack` substring test. -/
def strStartsWith : Str → Str → Bool
  | [], _ => true
  | _ :: _, [] => false
  | a :: as, b :: bs => a == b && strStartsWith as bs

/-- Python `in` operator on strings: `containsSub needle hay`. -/
def containsSub (needle hay : Str) : Bool :=
  match hay with
  | [] => needle.isEmpty
  | _ :: t => strStartsWith needle hay || containsSub needle t

/-! ## Regex engine

A backtracking matcher for the fragment of Python `re` used by the source:
literals, character classes, `.`, `\d`, `\s`, alternation, optional (`?`),
unbounded repetition over single-character atoms (`*`, `+`), bounded greedy
and lazy repetition over single-character atoms, and one capturing group per
pattern.  Alternatives are tried in written order and repetitions prefer the
greedy (resp. lazy) choice first, with full backtracking, so the first
successful parse at the leftmost starting position wins, as in `re.search`. -/

/-- One item of a character class `[...]`. -/
inductive ClsItem where
  | one (c : Char)
  | range (a b : Char)
  | digits
  | spaces
deriving DecidableEq

/-- Single-character matchers. -/
inductive CPred where
  | lit (c : Char)
  | digit
  | space
  | dot
  | cls (items : List ClsItem)
deriving DecidableEq

def clsItemMatch (c : Char) : ClsItem → Bool
  | .one a => c == a
  | .range a b => decide (a ≤ c) && decide (c ≤ b)
  | .digits => isPyDigit c
  | .spaces => isPySpace c

def clsMatchRaw (items : List ClsItem) (c : Char) : Bool :=
  items.any (clsItemMatch c)

/-- Case-insensitive single-character matching (`re.IGNORECASE`): a literal
compares lower-cased, a class matches a character if the character itself or
one of its case variants is in the class. -/
def cmatch : CPred → Char → Bool
  | .lit a, c => pyLower c == pyLower a
  | .digit, c => isPyDigit c
  | .space, c => isPySpace c
  | .dot, c => c != '\n'
  | .cls items, c =>
      clsMatchRaw items c || clsMatchRaw items (pyLower c) ||
        clsMatchRaw items (pyUpper c)

/-- Pattern ASTs.  `rep p lo hi lz` is `p{lo,hi}` (lazy when `lz`), `star` and
`plus` are `*` and `+` over a single-character atom, `grp` is the (unique)
capturing group of a pattern. -/
inductive Rx where
  | eps
  | ch (p : CPred)
  | seq (a b : Rx)
  | alt (a b : Rx)
  | opt (a : Rx)
  | star (p : CPred)
  | plus (p : CPred)
  | rep (p : CPred) (lo hi : Nat) (lz : Bool)
  | grp (a : Rx)

/-- Greedy Kleene star over a single-character matcher, in
continuation-passing style: consume as many matching characters as possible,
backtracking one at a time. -/
def starRun (p : CPred) (s : Str) (cap : Option Str)
    (k : Str → Option Str → Option β) : Option β :=
  match s with
  | [] => k [] cap
  | c :: rest =>
    if cmatch p c then starRun p rest cap k <|> k (c :: rest) cap
    else k (c :: rest) cap

/-- Bounded repetition `p{lo,hi}` over a single-character matcher; lazy
repetition tries the continuation before consuming more. -/
def repRun (p : CPred) (lo hi : Nat) (lz : Bool) (s : Str) (cap : Option Str)
    (k : Str → Option Str → Option β) : Option β :=
  match hi with
  | 0 => if lo = 0 then k s cap else none
  | hi' + 1 =>
    if lo > 0 then
      match s with
      | [] => none
      | c :: rest =>
        if cmatch p c then repRun p (lo - 1) hi' lz rest cap k else none
    else
      let more : Option β :=
        match s with
        | [] => none
        | c :: rest =>
          if cmatch p c then repRun p 0 hi' lz rest cap k else none
      if lz then k s cap <|> more else more <|> k s cap

/-- The backtracking matcher: `mrun r s cap k` tries to match `r` at the head
of `s` and calls `k` with the remaining input and the capture recorded so far,
exploring alternatives in the priority order of Python `re`. -/
def mrun : Rx → Str → Option Str → (Str → Option Str → Option β) → Option β
  | .eps, s, cap, k => k s cap
  | .ch p, s, cap, k =>
    match s with
    | [] => none
    | c :: rest => if cmatch p c then k rest cap else none
  | .seq a b, s, cap, k => mrun a s cap fun s2 c2 => mrun b s2 c2 k
  | .alt a b, s, cap, k => mrun a s cap k <|> mrun b s cap k
  | .opt a, s, cap, k => mrun a s cap k <|> k s cap
  | .star p, s, cap, k => starRun p s cap k
  | .plus p, s, cap, k =>
    match s with
    | [] => none
    | c :: rest => if cmatch p c then starRun p rest cap k else none
  | .rep p lo hi lz, s, cap, k => repRun p lo hi lz s cap k
  | .grp a, s, cap, k =>
    mrun a s cap fun s2 _ => k s2 (some (s.take (s.length - s2.length)))

/-- Attempt a match anchored at the start of `s`; on success return the
capture of group 1 and the input remaining after the match. -/
def tryAt (r : Rx) (s : Str) : Option (Str × Str) :=
  mrun r s none fun s' cap => some (cap.getD [], s')

/-- Python `re.search`: try each start position from the left, returning the
first successful match (group-1 capture and remaining input). -/
def searchFrom (r : Rx) : Str → Option (Str × Str)
  | [] => tryAt r []
  | c :: rest => tryAt r (c :: rest) <|> searchFrom r rest

/-- Group-1 capture of `re.search`, i.e. `match.group(1)` when there is a
match. -/
def searchCap (r : Rx) (s : Str) : Option Str :=
  (searchFrom r s).map Prod.fst

/-- Python `re.finditer`, fueled for termination: scan for non-overlapping
matches left to right, resuming after each match end (advancing one character
after an empty match, which none of the embedded patterns can produce).
Returns the list of group-1 captures. -/
def findIterAux (r : Rx) : Nat → Str → List Str
  | 0, _ => []
  | fuel + 1, s =>
    match searchFrom r s with
    | none => []
    | some (cap, rest) =>
      cap ::
        (if rest.length = s.length then findIterAux r fuel (rest.drop 1)
         else findIterAux r fuel rest)

def findIter (r : Rx) (s : Str) : List Str :=
  findIterAux r (s.length + 1) s

/-! ## Pattern transliterations

Each definition below transliterates one regex literal of
`ml_service/models.py` into a pattern AST; the original literal is quoted in
the doc comment. -/

/-- Literal string pattern (matched case-insensitively, as all source calls
pass IGNORECASE). -/
def rlit (s : String) : Rx :=
  s.toList.foldr (fun c r => Rx.seq (Rx.ch (CPred.lit c)) r) Rx.eps

/-- Sequencing of a list of patterns. -/
def rseq (l : List Rx) : Rx := l.foldr Rx.seq Rx.eps

/-- Pattern for one whitespace run, regex \s+ . -/
def sp : Rx := Rx.plus CPred.space

/-- Pattern for optional whitespace, regex \s* . -/
def sps : Rx := Rx.star CPred.space

/-- Class [\/\-\.] used between number groups. -/
def sepCls : CPred := CPred.cls [.one '/', .one '-', .one '.']

/-- Class [ºª°] after the letter n in number headers. -/
def ordCls : CPred := CPred.cls [.one 'º', .one 'ª', .one '°']

/-- Pattern [:\s]+ separating a label from its value. -/
def colonSp : Rx := Rx.plus (CPred.cls [.one ':', .spaces])

/-- Class [\d.,] of currency numerals. -/
def numCls : CPred := CPred.cls [.digits, .one '.', .one ',']

/-- Pattern \d with a bounded repetition count. -/
def dd (lo hi : Nat) : Rx := Rx.rep CPred.digit lo hi false

/-- Regex processo\s+n[ºª°]?\s*(\d{1,3}[\/\-\.]\d{4}(?:[\/\-\.]\d{2,4})?) -/
def numeroPat1 : Rx :=
  rseq [rlit "processo", sp, rlit "n", .opt (.ch ordCls), sps,
    .grp (rseq [dd 1 3, .ch sepCls, dd 4 4,
      .opt (rseq [.ch sepCls, dd 2 4])])]

/-- Regex edital\s+n[ºª°]?\s*(\d{1,3}[\/\-\.]\d{4}) -/
def numeroPat2 : Rx :=
  rseq [rlit "edital", sp, rlit "n", .opt (.ch ordCls), sps,
    .grp (rseq [dd 1 3, .ch sepCls, dd 4 4])]

/-- Regex licitação\s+n[ºª°]?\s*(\d{1,3}[\/\-\.]\d{4}) -/
def numeroPat3 : Rx :=
  rseq [rlit "licitação", sp, rlit "n", .opt (.ch ordCls), sps,
    .grp (rseq [dd 1 3, .ch sepCls, dd 4 4])]

/-- The ordered numero_processo pattern list of `_load_patterns`. -/
def numeroPatterns : List Rx := [numeroPat1, numeroPat2, numeroPat3]

/-- Regex valor\s+(?:total\s+)?estimado[:\s]+r\$?\s*([\d.,]+) -/
def valorPat1 : Rx :=
  rseq [rlit "valor", sp, .opt (rseq [rlit "total", sp]), rlit "estimado",
    colonSp, rlit "r", .opt (.ch (.lit '$')), sps, .grp (.plus numCls)]

/-- Regex valor\s+(?:máximo\s+)?aceito[:\s]+r\$?\s*([\d.,]+) -/
def valorPat2 : Rx :=
  rseq [rlit "valor", sp, .opt (rseq [rlit "máximo", sp]), rlit "aceito",
    colonSp, rlit "r", .opt (.ch (.lit '$')), sps, .grp (.plus numCls)]

/-- Regex orçamento\s+estimado[:\s]+r\$?\s*([\d.,]+) -/
def valorPat3 : Rx :=
  rseq [rlit "orçamento", sp, rlit "estimado",
    colonSp, rlit "r", .opt (.ch (.lit '$')), sps, .grp (.plus numCls)]

/-- The ordered valor_estimado pattern list of `_load_patterns`. -/
def valorPatterns : List Rx := [valorPat1, valorPat2, valorPat3]

/-- Capturing group (\d{1,2}[\/\-\.]\d{1,2}[\/\-\.]\d{2,4}) of the date
patterns. -/
def dateGrp : Rx :=
  .grp (rseq [dd 1 2, .ch sepCls, dd 1 2, .ch sepCls, dd 2 4])

/-- Regex (?:abertura|entrega)\s+(?:das?\s+)?propostas?[:\s]+(date) -/
def dataAberturaPat1 : Rx :=
  rseq [.alt (rlit "abertura") (rlit "entrega"), sp,
    .opt (rseq [rlit "da", .opt (.ch (.lit 's')), sp]),
    rlit "proposta", .opt (.ch (.lit 's')), colonSp, dateGrp]

/-- Regex até\s+(?:às?\s+)?(date) -/
def dataAberturaPat2 : Rx :=
  rseq [rlit "até", sp, .opt (rseq [rlit "à", .opt (.ch (.lit 's')), sp]),
    dateGrp]

/-- The ordered data_abertura pattern list of `_load_patterns`. -/
def dataAberturaPatterns : List Rx := [dataAberturaPat1, dataAberturaPat2]

/-- Regex sessão\s+pública[:\s]+(date) -/
def dataSessaoPat1 : Rx :=
  rseq [rlit "sessão", sp, rlit "pública", colonSp, dateGrp]

/-- Regex disputa\s+de\s+lances[:\s]+(date) -/
def dataSessaoPat2 : Rx :=
  rseq [rlit "disputa", sp, rlit "de", sp, rlit "lances", colonSp, dateGrp]

/-- The ordered data_sessao pattern list of `_load_patterns`. -/
def dataSessaoPatterns : List Rx := [dataSessaoPat1, dataSessaoPat2]

/-- Class [A-Z]. -/
def upperCls : CPred := CPred.cls [.range 'A' 'Z']

/-- Class [a-zA-ZÀ-ÿ\s]. -/
def orgNameCls : CPred :=
  CPred.cls [.range 'a' 'z', .range 'A' 'Z', .range 'À' 'ÿ', .spaces]

/-- Class [A-Z\s]. -/
def upperSpCls : CPred := CPred.cls [.range 'A' 'Z', .spaces]

/-- Regex
(?:município|prefeitura|câmara|estado|governo)\s+(?:municipal\s+)?(?:de\s+)?([A-Z][a-zA-ZÀ-ÿ\s]+) -/
def orgPat1 : Rx :=
  rseq [.alt (rlit "município") (.alt (rlit "prefeitura")
      (.alt (rlit "câmara") (.alt (rlit "estado") (rlit "governo")))), sp,
    .opt (rseq [rlit "municipal", sp]), .opt (rseq [rlit "de", sp]),
    .grp (rseq [.ch upperCls, .plus orgNameCls])]

/-- Regex ([A-Z][A-Z\s]+LTDA\.?) -/
def orgPat2 : Rx :=
  .grp (rseq [.ch upperCls, .plus upperSpCls, rlit "LTDA",
    .opt (.ch (.lit '.'))])

/-- Regex (UNIVERSIDADE[A-Z\s]+) -/
def orgPat3 : Rx := .grp (rseq [rlit "UNIVERSIDADE", .plus upperSpCls])

/-- Regex (INSTITUTO[A-Z\s]+) -/
def orgPat4 : Rx := .grp (rseq [rlit "INSTITUTO", .plus upperSpCls])

/-- The ordered pattern list local to `_extract_organizacao`. -/
def orgPatterns : List Rx := [orgPat1, orgPat2, orgPat3, orgPat4]

/-- Terminator (?:\n|\.) of the objeto patterns. -/
def objTerm : Rx := .alt (.ch (.lit '\n')) (.ch (.lit '.'))

/-- Regex objeto[:\s]+(.{10,200}?)(?:\n|\.) -/
def objetoPat1 : Rx :=
  rseq [rlit "objeto", colonSp, .grp (.rep .dot 10 200 true), objTerm]

/-- Regex contratação\s+de\s+(.{10,200}?)(?:\n|\.) -/
def objetoPat2 : Rx :=
  rseq [rlit "contratação", sp, rlit "de", sp,
    .grp (.rep .dot 10 200 true), objTerm]

/-- Regex aquisição\s+de\s+(.{10,200}?)(?:\n|\.) -/
def objetoPat3 : Rx :=
  rseq [rlit "aquisição", sp, rlit "de", sp,
    .grp (.rep .dot 10 200 true), objTerm]

/-- The ordered pattern list local to `_extract_objeto_licitacao`. -/
def objetoPatterns : List Rx := [objetoPat1, objetoPat2, objetoPat3]

/-- Terminator (?:\n|;|\.|,) of the requirement patterns. -/
def reqTerm : Rx :=
  .alt (.ch (.lit '\n')) (.alt (.ch (.lit ';'))
    (.alt (.ch (.lit '.')) (.ch (.lit ','))))

/-- Regex (?:apresentar|juntar|anexar)\s+(.{5,100}?)(?:\n|;|\.|,) -/
def reqPat1 : Rx :=
  rseq [.alt (rlit "apresentar") (.alt (rlit "juntar") (rlit "anexar")), sp,
    .grp (.rep .dot 5 100 true), reqTerm]

/-- Regex certidão\s+(?:negativa\s+)?(?:de\s+)?(.{5,50}?)(?:\n|;|\.|,) -/
def reqPat2 : Rx :=
  rseq [rlit "certidão", sp, .opt (rseq [rlit "negativa", sp]),
    .opt (rseq [rlit "de", sp]), .grp (.rep .dot 5 50 true), reqTerm]

/-- Regex comprovante\s+(?:de\s+)?(.{5,50}?)(?:\n|;|\.|,) -/
def reqPat3 : Rx :=
  rseq [rlit "comprovante", sp, .opt (rseq [rlit "de", sp]),
    .grp (.rep .dot 5 50 true), reqTerm]

/-- Regex declaração\s+(?:de\s+)?(.{5,50}?)(?:\n|;|\.|,) -/
def reqPat4 : Rx :=
  rseq [rlit "declaração", sp, .opt (rseq [rlit "de", sp]),
    .grp (.rep .dot 5 50 true), reqTerm]

/-- Regex atestado\s+(?:de\s+)?(.{5,50}?)(?:\n|;|\.|,) -/
def reqPat5 : Rx :=
  rseq [rlit "atestado", sp, .opt (rseq [rlit "de", sp]),
    .grp (.rep .dot 5 50 true), reqTerm]

/-- The ordered (pattern, requirement_type) pairs of `_extract_requirements`. -/
def requirementPatterns : List (Rx × String) :=
  [(reqPat1, "DOCUMENTO_EXIGIDO"), (reqPat2, "CERTIDAO"),
   (reqPat3, "COMPROVANTE"), (reqPat4, "DECLARACAO"), (reqPat5, "ATESTADO")]

/-! ## Data model

Embeds the dictionaries built by `EditalAnalyzer` and the pydantic schemas of
`ml_service/main.py`. -/

/-- A Python exception value, identified by its message (`str(e)`). -/
structure PyErr where
  msg : String
deriving DecidableEq

deriving instance DecidableEq for Except

/-- Abstract stand-in for a `datetime.datetime` value produced by the external
`dateparser` library. -/
structure PDateTime where
  stamp : Int
deriving DecidableEq

/-- The configuration fields of `ml_service/config.py` used by the analyzer. -/
structure Settings where
  ENABLE_CACHE : Bool
  CACHE_TTL : Nat
  MAX_TEXT_LENGTH : Nat
deriving DecidableEq

/-- Defaults from `config.py`: ENABLE_CACHE true, CACHE_TTL 3600,
MAX_TEXT_LENGTH 1000000. -/
def defaultSettings : Settings :=
  { ENABLE_CACHE := true, CACHE_TTL := 3600, MAX_TEXT_LENGTH := 1000000 }

/-- The dictionary returned by `_extract_basic_info` (also the
EditalAnalysisBase schema). -/
structure BasicInfo where
  organizacao_licitante : Option Str
  modalidade_licitacao : Option String
  numero_processo : Option Str
  data_abertura_propostas : Option PDateTime
  data_sessao_publica : Option PDateTime
  objeto_licitacao : Option Str
  criterio_julgamento : Option String
  valor_estimado : Option ℚ
deriving DecidableEq

/-- One entry of the list returned by `_extract_entities` (the
ExtractedEntityBase schema).  Positions are Python ints. -/
structure ExtractedEntity where
  entity_type : String
  entity_value : Str
  confidence : ℚ
  start_position : Int
  end_position : Int
deriving DecidableEq

/-- One entry of the list returned by `_extract_requirements` (the
HabilitacaoRequirementBase schema). -/
structure Requirement where
  requirement_type : String
  description : Str
  document_type : Option String
  is_mandatory : Bool
deriving DecidableEq

/-- The dictionary returned by `analyze_text`. -/
structure AnalysisResult where
  analysis : BasicInfo
  entities : List ExtractedEntity
  requirements : List Requirement
deriving DecidableEq

/-- A spaCy entity span as consumed by `_extract_entities`: label, text and
character offsets into the analyzed (possibly truncated) input. -/
structure SpacyEnt where
  label : String
  text : Str
  start_char : Int
  end_char : Int
deriving DecidableEq

/-- The external spaCy pipeline `self.nlp`: called on a text, it either
returns entity spans or raises. -/
abbrev NlpModel := Str → Except PyErr (List SpacyEnt)

/-- The Redis client `self.redis_client`.  Each operation may raise (backend
unreachable).  Serialization of results is abstracted as the identity, so the
cache stores `AnalysisResult` values directly. -/
structure RedisClient where
  get : String → Except PyErr (Option AnalysisResult)
  setex : String → Nat → AnalysisResult → Except PyErr Unit

/-- The mutable attributes of `EditalAnalyzer` relevant to analysis: both are
`None` after `__init__` and set by `initialize`. -/
structure EditalAnalyzer where
  nlp : Option NlpModel
  redis_client : Option RedisClient

/-! ## Keyword tables -/

/-- The ordered modality table of `_extract_modalidade` (Python dicts iterate
in insertion order). -/
def modalities : List (String × String) :=
  [("pregão eletrônico", "Pregão Eletrônico"),
   ("pregão presencial", "Pregão Presencial"),
   ("concorrência", "Concorrência"),
   ("tomada de preços", "Tomada de Preços"),
   ("convite", "Convite"),
   ("concurso", "Concurso"),
   ("leilão", "Leilão")]

/-- The ordered criteria table of `_extract_criterio_julgamento`. -/
def criteria : List (String × String) :=
  [("menor preço", "Menor Preço"),
   ("técnica e preço", "Técnica e Preço"),
   ("melhor técnica", "Melhor Técnica"),
   ("maior desconto", "Maior Desconto")]

/-- The ordered description-to-document-type table of
`_load_document_types`. -/
def documentTypesMapping : List (String × String) :=
  [("contrato social", "CONTRATO_SOCIAL"),
   ("ato constitutivo", "CONTRATO_SOCIAL"),
   ("estatuto social", "CONTRATO_SOCIAL"),
   ("certidão negativa de débitos federais", "CND_FEDERAL"),
   ("cnd federal", "CND_FEDERAL"),
   ("certidão conjunta", "CND_FEDERAL"),
   ("certidão negativa de débitos estaduais", "CND_ESTADUAL"),
   ("certidão negativa de débitos municipais", "CND_MUNICIPAL"),
   ("certidão de regularidade do fgts", "CERTIDAO_FGTS"),
   ("crf", "CERTIDAO_FGTS"),
   ("certidão negativa de débitos trabalhistas", "CERTIDAO_TRABALHISTA"),
   ("cndt", "CERTIDAO_TRABALHISTA"),
   ("alvará de funcionamento", "ALVARA_FUNCIONAMENTO"),
   ("licença de funcionamento", "ALVARA_FUNCIONAMENTO"),
   ("atestado de capacidade técnica", "ATESTADO_CAPACIDADE_TECNICA"),
   ("comprovação de aptidão", "ATESTADO_CAPACIDADE_TECNICA"),
   ("balanço patrimonial", "BALANCO_PATRIMONIAL"),
   ("demonstração de resultados", "DEMONSTRACAO_RESULTADOS"),
   ("dre", "DEMONSTRACAO_RESULTADOS"),
   ("certidão de falência", "CERTIDAO_FALENCIA")]

/-! ## Field extractors -/

/-- Loop of `_extract_organizacao`: first pattern whose stripped capture is
longer than 3 characters wins; a shorter capture falls through to the next
pattern. -/
def orgLoop : List Rx → Str → Option Str
  | [], _ => none
  | p :: ps, t =>
    match searchCap p t with
    | some cap =>
      let org_name := pyStrip cap
      if 3 < org_name.length then some org_name else orgLoop ps t
    | none => orgLoop ps t

def _extract_organizacao (t : Str) : Option Str := orgLoop orgPatterns t

/-- Embeds `_extract_modalidade`: ordered case-of substring lookup on the
already lower-cased text. -/
def _extract_modalidade (textLower : Str) : Option String :=
  (modalities.find? fun kv => containsSub kv.1.toList textLower).map Prod.snd

/-- Loop of `_extract_numero_processo`: first matching pattern returns its
group-1 capture. -/
def firstCap : List Rx → Str → Option Str
  | [], _ => none
  | p :: ps, t => searchCap p t <|> firstCap ps t

def _extract_numero_processo (t : Str) : Option Str := firstCap numeroPatterns t

/-- Loop shared by the two date extractors: first pattern whose capture the
(external, abstracted) date parser accepts wins; an unparsable capture falls
through to the next pattern. -/
def dateLoop (dp : Str → Option PDateTime) : List Rx → Str → Option PDateTime
  | [], _ => none
  | p :: ps, t =>
    match searchCap p t with
    | some ds =>
      match dp ds with
      | some d => some d
      | none => dateLoop dp ps t
    | none => dateLoop dp ps t

def _extract_data_abertura (dp : Str → Option PDateTime) (t : Str) :
    Option PDateTime :=
  dateLoop dp dataAberturaPatterns t

def _extract_data_sessao (dp : Str → Option PDateTime) (t : Str) :
    Option PDateTime :=
  dateLoop dp dataSessaoPatterns t

/-- Loop of `_extract_objeto_licitacao`: first pattern whose stripped capture
is longer than 10 characters wins. -/
def objetoLoop : List Rx → Str → Option Str
  | [], _ => none
  | p :: ps, t =>
    match searchCap p t with
    | some cap =>
      let objeto := pyStrip cap
      if 10 < objeto.length then some objeto else objetoLoop ps t
    | none => objetoLoop ps t

def _extract_objeto_licitacao (t : Str) : Option Str := objetoLoop objetoPatterns t

/-- Embeds `_extract_criterio_julgamento`. -/
def _extract_criterio_julgamento (textLower : Str) : Option String :=
  (criteria.find? fun kv => containsSub kv.1.toList textLower).map Prod.snd

/-- Python `value_str.replace(".", "").replace(",", ".")`. -/
def normalizeValor (v : Str) : Str :=
  (v.filter fun c => c ≠ '.').map fun c => if c = ',' then '.' else c

/-- Embeds `decimal.Decimal(value_str)` on the plain digit forms that
`normalizeValor` can produce: an optional integer part and an optional
fractional part separated by one dot, at least one digit overall; anything
else raises, which `_extract_valor_estimado` turns into a fallthrough.  The
value of the Decimal i.f is the rational (digits of i followed by digits of
f) over 10 to the length of f. -/
def pyDecimal (s : Str) : Option ℚ :=
  if s.all (fun c => isPyDigit c || c == '.') && s.count '.' ≤ 1 &&
      !(s.filter isPyDigit).isEmpty then
    let intDigits := s.takeWhile fun c => c ≠ '.'
    let fracDigits := (s.dropWhile fun c => c ≠ '.').drop 1
    some (mkRat (natOfDigits (intDigits ++ fracDigits)) (10 ^ fracDigits.length))
  else none

/-- Loop of `_extract_valor_estimado`: first pattern whose normalized capture
parses as a Decimal wins; a failing parse (the except branch) falls through to
the next pattern. -/
def valorLoop : List Rx → Str → Option ℚ
  | [], _ => none
  | p :: ps, t =>
    match searchCap p t with
    | some v =>
      match pyDecimal (normalizeValor v) with
      | some d => some d
      | none => valorLoop ps t
    | none => valorLoop ps t

def _extract_valor_estimado (t : Str) : Option ℚ := valorLoop valorPatterns t

/-! ## Basic info extraction

`_extract_basic_info` calls the eight field-extractor methods in statement
order with no local exception handling, so an exception raised by any of them
aborts the whole call.  To express this the method calls are modelled as
`Except`-valued functions; the concrete extractors above, which never raise,
are the default instantiation (`defaultFieldExtractors`). -/

/-- The eight field-extractor methods as called by `_extract_basic_info`,
each allowed to raise. -/
structure FieldExtractors where
  organizacao : Str → Except PyErr (Option Str)
  modalidade : Str → Except PyErr (Option String)
  numero_processo : Str → Except PyErr (Option Str)
  data_abertura : Str → Except PyErr (Option PDateTime)
  data_sessao : Str → Except PyErr (Option PDateTime)
  objeto : Str → Except PyErr (Option Str)
  criterio : Str → Except PyErr (Option String)
  valor : Str → Except PyErr (Option ℚ)

/-- The concrete extractors of the source, which never raise; `dp` is the
external `dateparser.parse(date_str, languages=pt)` call. -/
def defaultFieldExtractors (dp : Str → Option PDateTime) : FieldExtractors where
  organizacao := fun t => .ok (_extract_organizacao t)
  modalidade := fun tl => .ok (_extract_modalidade tl)
  numero_processo := fun t => .ok (_extract_numero_processo t)
  data_abertura := fun t => .ok (_extract_data_abertura dp t)
  data_sessao := fun t => .ok (_extract_data_sessao dp t)
  objeto := fun t => .ok (_extract_objeto_licitacao t)
  criterio := fun tl => .ok (_extract_criterio_julgamento tl)
  valor := fun t => .ok (_extract_valor_estimado t)

/-- Embeds `EditalAnalyzer._extract_basic_info`: lower-case the text once,
run the extractors in statement order (modality and criterion receive the
lower-cased text), and assemble the result dictionary.  Exceptions
propagate. -/
def _extract_basic_info (fx : FieldExtractors) (text : Str) :
    Except PyErr BasicInfo := do
  let text_lower := pyLowerStr text
  let organizacao ← fx.organizacao text
  let modalidade ← fx.modalidade text_lower
  let numero_processo ← fx.numero_processo text
  let data_abertura ← fx.data_abertura text
  let data_sessao ← fx.data_sessao text
  let objeto ← fx.objeto text
  let criterio ← fx.criterio text_lower
  let valor_estimado ← fx.valor text
  return { organizacao_licitante := organizacao,
           modalidade_licitacao := modalidade,
           numero_processo := numero_processo,
           data_abertura_propostas := data_abertura,
           data_sessao_publica := data_sessao,
           objeto_licitacao := objeto,
           criterio_julgamento := criterio,
           valor_estimado := valor_estimado }

/-! ## Entity extraction -/

/-- The truncation in `_extract_entities`: texts longer than
MAX_TEXT_LENGTH are cut, shorter ones passed unchanged. -/
def truncateText (cfg : Settings) (t : Str) : Str :=
  if cfg.MAX_TEXT_LENGTH < t.length then t.take cfg.MAX_TEXT_LENGTH else t

/-- The retained entity labels of `_extract_entities`. -/
def entityAllowList : List String := ["PERSON", "ORG", "GPE", "MONEY", "DATE"]

/-- Embeds `EditalAnalyzer._extract_entities`: with no model loaded return
the empty list; otherwise truncate, run the model (whose exception
propagates), keep only allow-listed labels, and emit entities with the fixed
confidence 0.8. -/
def _extract_entities (nlp : Option NlpModel) (cfg : Settings) (t : Str) :
    Except PyErr (List ExtractedEntity) :=
  match nlp with
  | none => .ok []
  | some f =>
    match f (truncateText cfg t) with
    | .error e => .error e
    | .ok ents =>
      .ok ((ents.filter fun e => entityAllowList.contains e.label).map
        fun e =>
          { entity_type := e.label,
            entity_value := e.text,
            confidence := (8 : ℚ) / 10,
            start_position := e.start_char,
            end_position := e.end_char })

/-! ## Requirement extraction -/

/-- The stop-word list of `_extract_requirements`. -/
def reqStopWords : List Str :=
  [("de").toList, ("da").toList, ("do").toList, ("das").toList, ("dos").toList]

/-- Matches of one (pattern, requirement_type) pair in
`_extract_requirements`: each finditer capture is stripped, dropped when
shorter than 5 characters or a stop word, and otherwise mapped against the
document-type table. -/
def reqsFromPattern (t : Str) (p : Rx) (req_type : String) : List Requirement :=
  (findIter p t).filterMap fun cap =>
    let description := pyStrip cap
    if description.length < 5 || reqStopWords.contains (pyLowerStr description)
    then none
    else some
      { requirement_type := req_type,
        description := description,
        document_type :=
          (documentTypesMapping.find? fun kv =>
            containsSub kv.1.toList (pyLowerStr description)).map Prod.snd,
        is_mandatory := true }

/-- Embeds `EditalAnalyzer._map_to_document_type` (the lookup inlined in
`reqsFromPattern` above, kept as its own definition for the theorems). -/
def _map_to_document_type (description : Str) : Option String :=
  (documentTypesMapping.find? fun kv =>
    containsSub kv.1.toList description).map Prod.snd

/-- Embeds `EditalAnalyzer._extract_requirements`: the five pattern pairs are
processed in order, appending the surviving matches of each. -/
def _extract_requirements (t : Str) : List Requirement :=
  requirementPatterns.foldr
    (fun pr acc => reqsFromPattern t pr.1 pr.2 ++ acc) []

/-! ## Analyzer facade -/

/-- The key built by `_get_cache_key`; the MD5 hex digest of the text is the
external parameter `md5hex`. -/
def _get_cache_key (md5hex : Str → String) (t : Str) : String :=
  "analysis:" ++ md5hex t

/-- Embeds `EditalAnalyzer.analyze_text`: cache lookup (guarded by
ENABLE_CACHE and a present client) whose exception propagates, then basic
info, entities and requirements in dictionary order, then the cache write
whose exception also propagates. -/
def analyze_text (cfg : Settings) (md5hex : Str → String)
    (fx : FieldExtractors) (a : EditalAnalyzer) (t : Str) :
    Except PyErr AnalysisResult :=
  let key := _get_cache_key md5hex t
  let cached : Except PyErr (Option AnalysisResult) :=
    match cfg.ENABLE_CACHE, a.redis_client with
    | true, some rc => rc.get key
    | _, _ => .ok none
  match cached with
  | .error e => .error e
  | .ok (some cached_result) => .ok cached_result
  | .ok none =>
    match _extract_basic_info fx t with
    | .error e => .error e
    | .ok analysis =>
      match _extract_entities a.nlp cfg t with
      | .error e => .error e
      | .ok entities =>
        let result : AnalysisResult :=
          { analysis := analysis, entities := entities,
            requirements := _extract_requirements t }
        match cfg.ENABLE_CACHE, a.redis_client with
        | true, some rc =>
          match rc.setex key cfg.CACHE_TTL result with
          | .error e => .error e
          | .ok _ => .ok result
        | _, _ => .ok result

/-- The MLAnalysisResponse schema of `ml_service/main.py`. -/
structure MLAnalysisResponse where
  success : Bool
  analysis : Option BasicInfo
  entities : List ExtractedEntity
  requirements : List Requirement
  error : Option String
deriving DecidableEq

/-- The early return of `analyze_edital` for missing text content. -/
def noTextResponse : MLAnalysisResponse :=
  { success := false, analysis := none, entities := [], requirements := [],
    error := some "No text content provided" }

/-- Embeds the `/analyze` handler `analyze_edital`: falsy text content (None
or the empty string) yields the early failure response; otherwise
`analyze_text` runs and any exception it raises is caught by the blanket
handler and rendered as a failure response. -/
def analyze_edital (cfg : Settings) (md5hex : Str → String)
    (fx : FieldExtractors) (a : EditalAnalyzer)
    (text_content : Option Str) : MLAnalysisResponse :=
  if text_content = none ∨ text_content = some [] then noTextResponse
  else
    match analyze_text cfg md5hex fx a (text_content.getD []) with
    | .ok r =>
      { success := true, analysis := some r.analysis, entities := r.entities,
        requirements := r.requirements, error := none }
    | .error e =>
      { success := false, analysis := none, entities := [],
        requirements := [], error := some ("Analysis failed: " ++ e.msg) }

/-! ## Concrete instantiations used by witnesses and counterexamples -/

/-- A date parser that accepts nothing; the concrete evaluations below never
reach a date-parser call (no date pattern matches their inputs), so any
instantiation gives the same results. -/
def dpNone : Str → Option PDateTime := fun _ => none

/-- A fixed stand-in for the MD5 hex digest; the cache key only has to be
some deterministic string in the concrete evaluations. -/
def md5c : Str → String := fun _ => "d41d8cd98f00b204e9800998ecf8427e"

/-- A Redis client whose backend is unreachable: every operation raises. -/
def downRedis : RedisClient where
  get := fun _ => .error { msg := "connection refused" }
  setex := fun _ _ _ => .error { msg := "connection refused" }

/-- A Redis client that is reachable but empty (always a cache miss, writes
succeed). -/
def emptyRedis : RedisClient where
  get := fun _ => .ok none
  setex := fun _ _ _ => .ok ()

/-- An analyzer before `initialize` has run: no model, no cache client. -/
def freshAnalyzer : EditalAnalyzer := { nlp := none, redis_client := none }

/-- An initialized analyzer whose cache backend is unreachable. -/
def downCacheAnalyzer : EditalAnalyzer :=
  { nlp := none, redis_client := some downRedis }

/-- A BasicInfo with every field absent. -/
def emptyBasicInfo : BasicInfo :=
  { organizacao_licitante := none, modalidade_licitacao := none,
    numero_processo := none, data_abertura_propostas := none,
    data_sessao_publica := none, objeto_licitacao := none,
    criterio_julgamento := none, valor_estimado := none }

/-- Analyzer state constructor (avoids structure braces inside statements). -/
def mkAnalyzer (n : Option NlpModel) (r : Option RedisClient) : EditalAnalyzer :=
  { nlp := n, redis_client := r }

/-- The BasicInfo computed by the concrete source extractors on a text. -/
def defaultBasicInfo (dp : Str → Option PDateTime) (t : Str) : BasicInfo :=
  { organizacao_licitante := _extract_organizacao t,
    modalidade_licitacao := _extract_modalidade (pyLowerStr t),
    numero_processo := _extract_numero_processo t,
    data_abertura_propostas := _extract_data_abertura dp t,
    data_sessao_publica := _extract_data_sessao dp t,
    objeto_licitacao := _extract_objeto_licitacao t,
    criterio_julgamento := _extract_criterio_julgamento (pyLowerStr t),
    valor_estimado := _extract_valor_estimado t }

/-- With the concrete (never-raising) extractors, `_extract_basic_info`
always succeeds with the componentwise extraction result. -/
theorem basicInfo_default (dp : Str → Option PDateTime) (t : Str) :
    _extract_basic_info (defaultFieldExtractors dp) t =
      .ok (defaultBasicInfo dp t) := rfl

/-! ## Claim C3 -/

/-- A Redis client that signals any attempted write by raising. -/
def setexErr : PyErr := { msg := "setex called" }

def setexFailRedis : RedisClient where
  get := fun _ => .ok none
  setex := fun _ _ _ => .error setexErr

/-- The successful response produced for a whitespace-only input. -/
def blankAnalyzedResponse : MLAnalysisResponse :=
  { success := true, analysis := some emptyBasicInfo, entities := [],
    requirements := [], error := none }

/-- Claim C3, counterexample: a blank (whitespace-only) input is NOT rejected
with the empty-input error — the handler runs the full analysis and returns a
success response, and with a cache attached the result of analyzing the blank
text is even written to the cache (witnessed by a write-signalling client
raising). -/
theorem c3_counterexample :
    analyze_edital defaultSettings md5c (defaultFieldExtractors dpNone)
      freshAnalyzer (some (" ".toList)) = blankAnalyzedResponse ∧
    analyze_text defaultSettings md5c (defaultFieldExtractors dpNone)
      (mkAnalyzer none (some setexFailRedis)) (" ".toList) =
        .error setexErr := by
  constructor <;> rfl

/-- Claim C3, amended: only falsy text content — missing or the empty
string — is rejected immediately with the fixed failure response; the
rejection happens before any extractor or cache operation can run (the
extractor set and analyzer state are universally quantified, including ones
that raise on any use). -/
theorem c3_empty_input_rejected (cfg : Settings) (md5hex : Str → String)
    (fx : FieldExtractors) (a : EditalAnalyzer) :
    analyze_edital cfg md5hex fx a none = noTextResponse ∧
    analyze_edital cfg md5hex fx a (some []) = noTextResponse := by
  constructor <;> rfl

/-! ## Claim C4 -/

/-- The Scenario A input text of the specification. -/
def scenarioAText : Str :=
  "Processo nº 123/2024 ... Pregão Eletrônico ... valor estimado R$ 1.500,00".toList

/-- The header fields extracted from the Scenario A text. -/
def scenarioAInfo : BasicInfo :=
  { organizacao_licitante := none,
    modalidade_licitacao := some "Pregão Eletrônico",
    numero_processo := some ("123/2024".toList),
    data_abertura_propostas := none,
    data_sessao_publica := none,
    objeto_licitacao := none,
    criterio_julgamento := none,
    valor_estimado := some 1500 }

/-- Claim C4: on the Scenario A input, analysis succeeds and extracts process
number 123/2024, modality Pregão Eletrônico, and estimated value exactly
1500.00 (thousands separator removed, decimal comma converted before decimal
parsing). -/
theorem c4_scenario_a :
    analyze_text defaultSettings md5c (defaultFieldExtractors dpNone)
      freshAnalyzer scenarioAText = .ok ⟨scenarioAInfo, [], []⟩ := by
  decide

/-! ## Claim C5 -/

/-- A requirement sentence containing the federal-debt-certificate phrase
without a presentation verb. -/
def bareCertidaoText : Str :=
  "CERTIDÃO NEGATIVA DE DÉBITOS FEDERAIS.".toList

/-- The single requirement extracted from `bareCertidaoText`: the certidão
pattern capture drops the leading phrase, so the document-type lookup finds
nothing. -/
def bareCertidaoReq : Requirement :=
  { requirement_type := "CERTIDAO", description := ("DÉBITOS FEDERAIS".toList),
    document_type := none, is_mandatory := true }

/-- Claim C5, counterexample: an input whose requirement sentence is the bare
phrase CERTIDÃO NEGATIVA DE DÉBITOS FEDERAIS yields exactly one requirement,
and its document-type tag is unset, not CND_FEDERAL: the certidão pattern
captures only the text after the optional negativa/de words, and the
document-type vocabulary is matched against that suffix. -/
theorem c5_counterexample :
    _extract_requirements bareCertidaoText = [bareCertidaoReq] ∧
    bareCertidaoReq.document_type = none := by
  constructor <;> rfl

/-- A requirement sentence where the phrase follows a presentation verb. -/
def apresentarCertidaoText : Str :=
  "Apresentar CERTIDÃO NEGATIVA DE DÉBITOS FEDERAIS.".toList

/-- The requirement extracted by the apresentar pattern, whose capture is the
whole phrase, so the vocabulary lookup succeeds. -/
def apresentarCertidaoReq : Requirement :=
  { requirement_type := "DOCUMENTO_EXIGIDO",
    description := ("CERTIDÃO NEGATIVA DE DÉBITOS FEDERAIS".toList),
    document_type := some "CND_FEDERAL", is_mandatory := true }

/-- Claim C5, amended: the CND_FEDERAL tag is attached when the phrase is the
captured description, e.g. when it follows apresentar/juntar/anexar; the bare
certidão pattern additionally emits the suffix-captured requirement with no
tag. -/
theorem c5_apresentar_cnd_federal :
    _extract_requirements apresentarCertidaoText =
      [apresentarCertidaoReq, bareCertidaoReq] ∧
    apresentarCertidaoReq.document_type = some "CND_FEDERAL" := by
  constructor <;> rfl

/-! ## Claim C6 -/

/-- A text on which the first estimated-value pattern matches with an
unparsable capture while the third pattern matches with a parsable one. -/
def valorAmbText : Str :=
  "valor estimado R$ , orçamento estimado R$ 100".toList

/-- Claim C6, counterexample: on `valorAmbText` the first listed valor
pattern is capable of matching (capturing a bare comma), yet the extractor
returns the value parsed from the capture of the later orçamento pattern,
because the first capture fails decimal parsing and the loop falls through. -/
theorem c6_counterexample :
    searchCap valorPat1 valorAmbText = some (",".toList) ∧
    pyDecimal (normalizeValor (",".toList)) = none ∧
    searchCap valorPat3 valorAmbText = some ("100".toList) ∧
    _extract_valor_estimado valorAmbText = some 100 := by
  refine ⟨by rfl, by rfl, by rfl, by rfl⟩

/-- First-success lemma for the plain first-match loop: if every earlier
pattern fails to match and `p` matches with capture `v`, the loop returns
`v`, whatever the later patterns are. -/
theorem firstCap_first_success (t v : Str) (ps1 : List Rx) (p : Rx)
    (ps2 : List Rx) (hfail : ∀ q ∈ ps1, searchCap q t = none)
    (hp : searchCap p t = some v) :
    firstCap (ps1 ++ p :: ps2) t = some v := by
  induction ps1 with
  | nil => simp [firstCap, hp]
  | cons q qs ih =>
    have hq : searchCap q t = none := hfail q (List.mem_cons_self q qs)
    simp only [List.cons_append, firstCap, hq, Option.none_orElse]
    exact ih fun r hr => hfail r (List.mem_cons_of_mem q hr)

/-- First-success lemma for the organization loop: earlier patterns either
do not match or their stripped captures fail the length > 3 validation. -/
theorem orgLoop_first_success (t v : Str) (ps1 : List Rx) (p : Rx)
    (ps2 : List Rx)
    (hfail : ∀ q ∈ ps1, ∀ w, searchCap q t = some w →
      ¬ 3 < (pyStrip w).length)
    (hp : searchCap p t = some v) (hv : 3 < (pyStrip v).length) :
    orgLoop (ps1 ++ p :: ps2) t = some (pyStrip v) := by
  induction ps1 with
  | nil =>
    rw [List.nil_append]
    unfold orgLoop
    rw [hp]
    show (if 3 < (pyStrip v).length then some (pyStrip v)
      else orgLoop ps2 t) = some (pyStrip v)
    rw [if_pos hv]
  | cons q qs ih =>
    rw [List.cons_append]
    unfold orgLoop
    cases hq : searchCap q t with
    | none => exact ih fun r hr w hw => hfail r (List.mem_cons_of_mem q hr) w hw
    | some w =>
      show (if 3 < (pyStrip w).length then some (pyStrip w)
        else orgLoop (qs ++ p :: ps2) t) = some (pyStrip v)
      rw [if_neg (hfail q (List.mem_cons_self q qs) w hq)]
      exact ih fun r hr w2 hw2 => hfail r (List.mem_cons_of_mem q hr) w2 hw2

/-- First-success lemma for the date loop: earlier patterns either do not
match or the date parser rejects their captures. -/
theorem dateLoop_first_success (dp : Str → Option PDateTime) (t v : Str)
    (d : PDateTime) (ps1 : List Rx) (p : Rx) (ps2 : List Rx)
    (hfail : ∀ q ∈ ps1, ∀ w, searchCap q t = some w → dp w = none)
    (hp : searchCap p t = some v) (hd : dp v = some d) :
    dateLoop dp (ps1 ++ p :: ps2) t = some d := by
  induction ps1 with
  | nil =>
    rw [List.nil_append]
    unfold dateLoop
    rw [hp]
    show (match dp v with
      | some d2 => some d2
      | none => dateLoop dp ps2 t) = some d
    rw [hd]
  | cons q qs ih =>
    rw [List.cons_append]
    unfold dateLoop
    cases hq : searchCap q t with
    | none => exact ih fun r hr w hw => hfail r (List.mem_cons_of_mem q hr) w hw
    | some w =>
      show (match dp w with
        | some d2 => some d2
        | none => dateLoop dp (qs ++ p :: ps2) t) = some d
      rw [hfail q (List.mem_cons_self q qs) w hq]
      exact ih fun r hr w2 hw2 => hfail r (List.mem_cons_of_mem q hr) w2 hw2

/-- First-success lemma for the bidding-object loop: earlier patterns either
do not match or their stripped captures fail the length > 10 validation. -/
theorem objetoLoop_first_success (t v : Str) (ps1 : List Rx) (p : Rx)
    (ps2 : List Rx)
    (hfail : ∀ q ∈ ps1, ∀ w, searchCap q t = some w →
      ¬ 10 < (pyStrip w).length)
    (hp : searchCap p t = some v) (hv : 10 < (pyStrip v).length) :
    objetoLoop (ps1 ++ p :: ps2) t = some (pyStrip v) := by
  induction ps1 with
  | nil =>
    rw [List.nil_append]
    unfold objetoLoop
    rw [hp]
    show (if 10 < (pyStrip v).length then some (pyStrip v)
      else objetoLoop ps2 t) = some (pyStrip v)
    rw [if_pos hv]
  | cons q qs ih =>
    rw [List.cons_append]
    unfold objetoLoop
    cases hq : searchCap q t with
    | none => exact ih fun r hr w hw => hfail r (List.mem_cons_of_mem q hr) w hw
    | some w =>
      show (if 10 < (pyStrip w).length then some (pyStrip w)
        else objetoLoop (qs ++ p :: ps2) t) = some (pyStrip v)
      rw [if_neg (hfail q (List.mem_cons_self q qs) w hq)]
      exact ih fun r hr w2 hw2 => hfail r (List.mem_cons_of_mem q hr) w2 hw2

/-- First-success lemma for the estimated-value loop: earlier patterns either
do not match or their normalized captures fail the Decimal parse. -/
theorem valorLoop_first_success (t v : Str) (d : ℚ) (ps1 : List Rx) (p : Rx)
    (ps2 : List Rx)
    (hfail : ∀ q ∈ ps1, ∀ w, searchCap q t = some w →
      pyDecimal (normalizeValor w) = none)
    (hp : searchCap p t = some v)
    (hd : pyDecimal (normalizeValor v) = some d) :
    valorLoop (ps1 ++ p :: ps2) t = some d := by
  induction ps1 with
  | nil =>
    rw [List.nil_append]
    unfold valorLoop
    rw [hp]
    show (match pyDecimal (normalizeValor v) with
      | some d2 => some d2
      | none => valorLoop ps2 t) = some d
    rw [hd]
  | cons q qs ih =>
    rw [List.cons_append]
    unfold valorLoop
    cases hq : searchCap q t with
    | none => exact ih fun r hr w hw => hfail r (List.mem_cons_of_mem q hr) w hw
    | some w =>
      show (match pyDecimal (normalizeValor w) with
        | some d2 => some d2
        | none => valorLoop (qs ++ p :: ps2) t) = some d
      rw [hfail q (List.mem_cons_self q qs) w hq]
      exact ih fun r hr w2 hw2 => hfail r (List.mem_cons_of_mem q hr) w2 hw2

/-- Claim C6, amended: for every regex-pattern field extractor and every
position in its ordered pattern list, the first SUCCESSFUL pattern wins,
where success includes the per-field validation: the process-number
extractor returns the first matching pattern's capture (no validation); the
organization extractor the first stripped capture of length > 3; the two
date extractors the first capture the date parser accepts; the
bidding-object extractor the first stripped capture of length > 10; the
estimated-value extractor the first normalized capture that parses as a
Decimal.  An earlier pattern that fails to match, or matches with a capture
failing its field's validation, is skipped in favor of later patterns. -/
theorem c6_first_success_wins :
    (∀ ps1 p ps2 (t v : Str), numeroPatterns = ps1 ++ p :: ps2 →
      (∀ q ∈ ps1, searchCap q t = none) → searchCap p t = some v →
      _extract_numero_processo t = some v) ∧
    (∀ ps1 p ps2 (t v : Str), orgPatterns = ps1 ++ p :: ps2 →
      (∀ q ∈ ps1, ∀ w, searchCap q t = some w →
        ¬ 3 < (pyStrip w).length) →
      searchCap p t = some v → 3 < (pyStrip v).length →
      _extract_organizacao t = some (pyStrip v)) ∧
    (∀ dp ps1 p ps2 (t v : Str) (d : PDateTime),
      dataAberturaPatterns = ps1 ++ p :: ps2 →
      (∀ q ∈ ps1, ∀ w, searchCap q t = some w → dp w = none) →
      searchCap p t = some v → dp v = some d →
      _extract_data_abertura dp t = some d) ∧
    (∀ dp ps1 p ps2 (t v : Str) (d : PDateTime),
      dataSessaoPatterns = ps1 ++ p :: ps2 →
      (∀ q ∈ ps1, ∀ w, searchCap q t = some w → dp w = none) →
      searchCap p t = some v → dp v = some d →
      _extract_data_sessao dp t = some d) ∧
    (∀ ps1 p ps2 (t v : Str), objetoPatterns = ps1 ++ p :: ps2 →
      (∀ q ∈ ps1, ∀ w, searchCap q t = some w →
        ¬ 10 < (pyStrip w).length) →
      searchCap p t = some v → 10 < (pyStrip v).length →
      _extract_objeto_licitacao t = some (pyStrip v)) ∧
    (∀ ps1 p ps2 (t v : Str) (d : ℚ), valorPatterns = ps1 ++ p :: ps2 →
      (∀ q ∈ ps1, ∀ w, searchCap q t = some w →
        pyDecimal (normalizeValor w) = none) →
      searchCap p t = some v → pyDecimal (normalizeValor v) = some d →
      _extract_valor_estimado t = some d) := by
  refine ⟨?_, ?_, ?_, ?_, ?_, ?_⟩
  · intro ps1 p ps2 t v hsplit hfail hp
    unfold _extract_numero_processo
    rw [hsplit]
    exact firstCap_first_success t v ps1 p ps2 hfail hp
  · intro ps1 p ps2 t v hsplit hfail hp hv
    unfold _extract_organizacao
    rw [hsplit]
    exact orgLoop_first_success t v ps1 p ps2 hfail hp hv
  · intro dp ps1 p ps2 t v d hsplit hfail hp hd
    unfold _extract_data_abertura
    rw [hsplit]
    exact dateLoop_first_success dp t v d ps1 p ps2 hfail hp hd
  · intro dp ps1 p ps2 t v d hsplit hfail hp hd
    unfold _extract_data_sessao
    rw [hsplit]
    exact dateLoop_first_success dp t v d ps1 p ps2 hfail hp hd
  · intro ps1 p ps2 t v hsplit hfail hp hv
    unfold _extract_objeto_licitacao
    rw [hsplit]
    exact objetoLoop_first_success t v ps1 p ps2 hfail hp hv
  · intro ps1 p ps2 t v d hsplit hfail hp hd
    unfold _extract_valor_estimado
    rw [hsplit]
    exact valorLoop_first_success t v d ps1 p ps2 hfail hp hd

/-- Claim C6, witness: the first-listed numero pattern wins outright on a
matching input, and on `valorAmbText` the third valor pattern wins because
the first matches with an unparsable capture and the second does not match —
exercising the skip-on-failed-validation hypotheses concretely. -/
theorem c6_witness :
    _extract_numero_processo ("processo nº 7/2024".toList) =
      some ("7/2024".toList) ∧
    _extract_valor_estimado valorAmbText = some 100 :=
  ⟨c6_first_success_wins.1 [] numeroPat1 [numeroPat2, numeroPat3] _ _ rfl
    (by intro q hq; cases hq) rfl,
   c6_first_success_wins.2.2.2.2.2 [valorPat1, valorPat2] valorPat3 []
    valorAmbText ("100".toList) 100 rfl
    (by
      intro q hq w hw
      simp only [List.mem_cons, List.not_mem_nil, or_false] at hq
      rcases hq with rfl | rfl
      · have h1 : searchCap valorPat1 valorAmbText = some (",".toList) := rfl
        rw [h1] at hw
        rw [← Option.some.inj hw]
        rfl
      · have h2 : searchCap valorPat2 valorAmbText = none := rfl
        rw [h2] at hw
        cases hw)
    rfl rfl⟩

/-! ## Claim C8 -/

/-- Every value returned by the objeto loop is a stripped capture of length
strictly greater than 10, for any pattern list. -/
theorem objetoLoop_length (ps : List Rx) (t s : Str)
    (h : objetoLoop ps t = some s) : 10 < s.length := by
  induction ps with
  | nil => simp [objetoLoop] at h
  | cons p ps ih =>
    unfold objetoLoop at h
    cases hc : searchCap p t with
    | none => rw [hc] at h; exact ih h
    | some cap =>
      rw [hc] at h
      simp only [] at h
      by_cases hl : 10 < (pyStrip cap).length
      · rw [if_pos hl] at h
        cases h
        exact hl
      · rw [if_neg hl] at h
        exact ih h

/-- Claim C8, counterexample: a capture whose trimmed length is exactly 10
(so at least 10, as the claim requires for keeping it) is DISCARDED: the
source keeps a capture only when its stripped length is strictly greater
than 10. -/
theorem c8_counterexample :
    searchCap objetoPat1 ("objeto: 1234567890.".toList) =
      some ("1234567890".toList) ∧
    (pyStrip ("1234567890".toList)).length = 10 ∧
    _extract_objeto_licitacao ("objeto: 1234567890.".toList) = none := by
  refine ⟨by rfl, by rfl, by rfl⟩

/-- Claim C8, amended: the bidding-object extractor keeps a capture exactly
when its trimmed length strictly exceeds 10 characters; every returned value
is such a stripped capture, and trimmed captures of length up to and
including 10 are discarded in favor of later patterns or absence. -/
theorem c8_object_min_length (t s : Str)
    (h : _extract_objeto_licitacao t = some s) : 10 < s.length :=
  objetoLoop_length objetoPatterns t s h

/-- Claim C8, witness: a returned bidding object indeed has more than 10
characters. -/
theorem c8_witness : 10 < ("material de escritorio em geral".toList).length :=
  c8_object_min_length ("objeto: material de escritorio em geral.".toList) _
    (by rfl)

/-! ## Claim C1 -/

/-- The exception raised by the unreachable cache backend. -/
def cacheErr : PyErr := { msg := "connection refused" }

/-- The failure response the handler produces when the cache read raises. -/
def cacheFailResponse : MLAnalysisResponse :=
  { success := false, analysis := none, entities := [], requirements := [],
    error := some "Analysis failed: connection refused" }

/-- Claim C1, counterexample: with an unreachable cache backend, analysis of
a one-character text does NOT proceed as on a cache miss; `analyze_text`
raises the cache error (no AnalysisResult is produced) and the handler
surfaces it to the caller as a failure response. -/
theorem c1_counterexample :
    analyze_text defaultSettings md5c (defaultFieldExtractors dpNone)
      downCacheAnalyzer ("x".toList) = .error cacheErr ∧
    analyze_edital defaultSettings md5c (defaultFieldExtractors dpNone)
      downCacheAnalyzer (some ("x".toList)) = cacheFailResponse := by
  constructor <;> rfl

/-- Claim C1, amended: a cache `get` exception is not treated as a cache
miss.  With caching enabled and a client present, an error raised by the
cache read propagates out of `analyze_text` unchanged — no analysis result is
returned — and `analyze_edital` converts it into a success=false response
carrying the error message. -/
theorem c1_cache_error_propagates (cfg : Settings) (md5hex : Str → String)
    (fx : FieldExtractors) (n : Option NlpModel) (rc : RedisClient) (t : Str)
    (e : PyErr) (hc : cfg.ENABLE_CACHE = true)
    (hget : rc.get (_get_cache_key md5hex t) = .error e) :
    analyze_text cfg md5hex fx (mkAnalyzer n (some rc)) t = .error e ∧
    (t ≠ [] → analyze_edital cfg md5hex fx (mkAnalyzer n (some rc)) (some t) =
      MLAnalysisResponse.mk false none [] []
        (some ("Analysis failed: " ++ e.msg))) := by
  obtain ⟨ec, ttl, ml⟩ := cfg
  simp only at hc
  subst hc
  have h1 : analyze_text (Settings.mk true ttl ml) md5hex fx
      (mkAnalyzer n (some rc)) t = .error e := by
    simp only [analyze_text, mkAnalyzer, hget]
  refine ⟨h1, fun ht => ?_⟩
  unfold analyze_edital
  rw [if_neg (by simp [ht])]
  simp only [Option.getD_some, h1]

/-- Claim C1, witness: the amended behavior at a concrete unreachable
backend. -/
theorem c1_witness :
    analyze_text defaultSettings md5c (defaultFieldExtractors dpNone)
      (mkAnalyzer none (some downRedis)) ("x".toList) = .error cacheErr ∧
    analyze_edital defaultSettings md5c (defaultFieldExtractors dpNone)
      (mkAnalyzer none (some downRedis)) (some ("x".toList)) =
      MLAnalysisResponse.mk false none [] []
        (some ("Analysis failed: " ++ cacheErr.msg)) :=
  ⟨(c1_cache_error_propagates defaultSettings md5c (defaultFieldExtractors dpNone)
      none downRedis ("x".toList) cacheErr rfl rfl).1,
   (c1_cache_error_propagates defaultSettings md5c (defaultFieldExtractors dpNone)
      none downRedis ("x".toList) cacheErr rfl rfl).2 (by decide)⟩

/-! ## Claim C2 -/

/-- The exception raised by the failing organization extractor. -/
def boomErr : PyErr := { msg := "boom" }

/-- The concrete extractor set in which the organization extractor raises and
all other extractors are the source ones. -/
def failingOrgExtractors : FieldExtractors :=
  { defaultFieldExtractors dpNone with organizacao := fun _ => .error boomErr }

/-- Claim C2, counterexample: when the organization extractor raises, the
failure is NOT contained to that field: `_extract_basic_info` raises, the
whole analysis is aborted (no result with the field recorded absent), and the
handler returns a failure response. -/
theorem c2_counterexample :
    _extract_basic_info failingOrgExtractors ("abc".toList) =
      .error boomErr ∧
    analyze_edital defaultSettings md5c failingOrgExtractors freshAnalyzer
      (some ("abc".toList)) =
      MLAnalysisResponse.mk false none [] [] (some "Analysis failed: boom") := by
  constructor <;> rfl

/-- Bind of a successful Except computation steps into the continuation. -/
theorem exceptBind_ok {ε α β : Type} (a : α) (f : α → Except ε β) :
    (Except.ok a : Except ε α) >>= f = f a := rfl

/-- Bind of a raising Except computation propagates the error. -/
theorem exceptBind_error {ε α β : Type} (e : ε) (f : α → Except ε β) :
    (Except.error e : Except ε α) >>= f = (Except.error e : Except ε β) := rfl

/-- The analysis aborts with exception `e`: `_extract_basic_info` raises it
and so does `analyze_text` (state without a cache client, so the abort is
due to the extractor alone). -/
def abortsAnalysis (cfg : Settings) (md5hex : Str → String)
    (fx : FieldExtractors) (n : Option NlpModel) (t : Str) (e : PyErr) :
    Prop :=
  _extract_basic_info fx t = .error e ∧
  analyze_text cfg md5hex fx (mkAnalyzer n none) t = .error e

/-- Claim C2, amended: an exception in ANY single field extractor
propagates.  Whichever of the eight extractors is the first one to raise
(each extractor called before it in statement order returning normally),
`_extract_basic_info` raises that exception and so does `analyze_text`: the
field is not recorded absent and no partial result is produced; the handler
then converts the exception into a failure response (see
`c2_counterexample`). -/
theorem c2_extractor_error_aborts (cfg : Settings) (md5hex : Str → String)
    (fx : FieldExtractors) (n : Option NlpModel) (t : Str) (e : PyErr) :
    (fx.organizacao t = .error e → abortsAnalysis cfg md5hex fx n t e) ∧
    (∀ v1, fx.organizacao t = .ok v1 →
      fx.modalidade (pyLowerStr t) = .error e →
      abortsAnalysis cfg md5hex fx n t e) ∧
    (∀ v1 v2, fx.organizacao t = .ok v1 →
      fx.modalidade (pyLowerStr t) = .ok v2 →
      fx.numero_processo t = .error e →
      abortsAnalysis cfg md5hex fx n t e) ∧
    (∀ v1 v2 v3, fx.organizacao t = .ok v1 →
      fx.modalidade (pyLowerStr t) = .ok v2 →
      fx.numero_processo t = .ok v3 →
      fx.data_abertura t = .error e →
      abortsAnalysis cfg md5hex fx n t e) ∧
    (∀ v1 v2 v3 v4, fx.organizacao t = .ok v1 →
      fx.modalidade (pyLowerStr t) = .ok v2 →
      fx.numero_processo t = .ok v3 →
      fx.data_abertura t = .ok v4 →
      fx.data_sessao t = .error e →
      abortsAnalysis cfg md5hex fx n t e) ∧
    (∀ v1 v2 v3 v4 v5, fx.organizacao t = .ok v1 →
      fx.modalidade (pyLowerStr t) = .ok v2 →
      fx.numero_processo t = .ok v3 →
      fx.data_abertura t = .ok v4 →
      fx.data_sessao t = .ok v5 →
      fx.objeto t = .error e →
      abortsAnalysis cfg md5hex fx n t e) ∧
    (∀ v1 v2 v3 v4 v5 v6, fx.organizacao t = .ok v1 →
      fx.modalidade (pyLowerStr t) = .ok v2 →
      fx.numero_processo t = .ok v3 →
      fx.data_abertura t = .ok v4 →
      fx.data_sessao t = .ok v5 →
      fx.objeto t = .ok v6 →
      fx.criterio (pyLowerStr t) = .error e →
      abortsAnalysis cfg md5hex fx n t e) ∧
    (∀ v1 v2 v3 v4 v5 v6 v7, fx.organizacao t = .ok v1 →
      fx.modalidade (pyLowerStr t) = .ok v2 →
      fx.numero_processo t = .ok v3 →
      fx.data_abertura t = .ok v4 →
      fx.data_sessao t = .ok v5 →
      fx.objeto t = .ok v6 →
      fx.criterio (pyLowerStr t) = .ok v7 →
      fx.valor t = .error e →
      abortsAnalysis cfg md5hex fx n t e) := by
  have haborts : _extract_basic_info fx t = Except.error e →
      abortsAnalysis cfg md5hex fx n t e := by
    intro hb
    refine ⟨hb, ?_⟩
    obtain ⟨ec, ttl, ml⟩ := cfg
    cases ec <;> · unfold analyze_text mkAnalyzer; rw [hb]
  refine ⟨fun h1 => haborts ?_,
    fun v1 h1 h2 => haborts ?_,
    fun v1 v2 h1 h2 h3 => haborts ?_,
    fun v1 v2 v3 h1 h2 h3 h4 => haborts ?_,
    fun v1 v2 v3 v4 h1 h2 h3 h4 h5 => haborts ?_,
    fun v1 v2 v3 v4 v5 h1 h2 h3 h4 h5 h6 => haborts ?_,
    fun v1 v2 v3 v4 v5 v6 h1 h2 h3 h4 h5 h6 h7 => haborts ?_,
    fun v1 v2 v3 v4 v5 v6 v7 h1 h2 h3 h4 h5 h6 h7 h8 => haborts ?_⟩
  · simp only [_extract_basic_info, h1, exceptBind_error]
  · simp only [_extract_basic_info, h1, h2, exceptBind_ok, exceptBind_error]
  · simp only [_extract_basic_info, h1, h2, h3, exceptBind_ok,
      exceptBind_error]
  · simp only [_extract_basic_info, h1, h2, h3, h4, exceptBind_ok,
      exceptBind_error]
  · simp only [_extract_basic_info, h1, h2, h3, h4, h5, exceptBind_ok,
      exceptBind_error]
  · simp only [_extract_basic_info, h1, h2, h3, h4, h5, h6, exceptBind_ok,
      exceptBind_error]
  · simp only [_extract_basic_info, h1, h2, h3, h4, h5, h6, h7,
      exceptBind_ok, exceptBind_error]
  · simp only [_extract_basic_info, h1, h2, h3, h4, h5, h6, h7, h8,
      exceptBind_ok, exceptBind_error]

/-- The concrete extractor set in which the estimated-value extractor (the
last one called) raises and all other extractors are the source ones. -/
def failingValorExtractors : FieldExtractors :=
  { defaultFieldExtractors dpNone with valor := fun _ => .error boomErr }

/-- Claim C2, witness: the amended behavior at two concrete failing
extractor sets — the first-called extractor (organization) and the
last-called one (estimated value), the seven extractors before the latter
all succeeding. -/
theorem c2_witness :
    (_extract_basic_info failingOrgExtractors ("abc".toList) =
        .error boomErr ∧
      analyze_text defaultSettings md5c failingOrgExtractors
        (mkAnalyzer none none) ("abc".toList) = .error boomErr) ∧
    (_extract_basic_info failingValorExtractors ("abc".toList) =
        .error boomErr ∧
      analyze_text defaultSettings md5c failingValorExtractors
        (mkAnalyzer none none) ("abc".toList) = .error boomErr) :=
  ⟨(c2_extractor_error_aborts defaultSettings md5c failingOrgExtractors none
      ("abc".toList) boomErr).1 rfl,
   (c2_extractor_error_aborts defaultSettings md5c failingValorExtractors none
      ("abc".toList) boomErr).2.2.2.2.2.2.2 _ _ _ _ _ _ _
      rfl rfl rfl rfl rfl rfl rfl rfl⟩

/-! ## Claim C9 -/

/-- Claim C9: if the model invocation on the (possibly truncated) text
raises, the whole `analyze_text` call fails with that error — no partial
result with entities omitted is returned. -/
theorem c9_model_error_propagates (cfg : Settings) (md5hex : Str → String)
    (dp : Str → Option PDateTime) (t : Str) (f : NlpModel) (e : PyErr)
    (hf : f (truncateText cfg t) = .error e) :
    analyze_text cfg md5hex (defaultFieldExtractors dp)
      (mkAnalyzer (some f) none) t = .error e := by
  obtain ⟨ec, ttl, ml⟩ := cfg
  cases ec <;>
    simp only [analyze_text, mkAnalyzer, basicInfo_default,
      _extract_entities, hf]

/-- A model whose invocation always raises. -/
def crashModel : NlpModel := fun _ => .error { msg := "model crashed" }

/-- Claim C9, witness: the concrete crashing model aborts the analysis of a
concrete text with its own error. -/
theorem c9_witness :
    analyze_text defaultSettings md5c (defaultFieldExtractors dpNone)
      (mkAnalyzer (some crashModel) none) ("abc".toList) =
      .error (PyErr.mk "model crashed") :=
  c9_model_error_propagates defaultSettings md5c dpNone ("abc".toList)
    crashModel (PyErr.mk "model crashed") rfl

/-! ## Claim C10 -/

/-- Claim C10: with no language model loaded (nlp unset, as before
`initialize`), `analyze_text` still completes: the entity extractor silently
contributes the empty list and the other extraction passes run normally. -/
theorem c10_no_model_empty_entities (cfg : Settings) (md5hex : Str → String)
    (dp : Str → Option PDateTime) (t : Str) :
    analyze_text cfg md5hex (defaultFieldExtractors dp) freshAnalyzer t =
      .ok ⟨defaultBasicInfo dp t, [], _extract_requirements t⟩ := by
  obtain ⟨ec, ttl, ml⟩ := cfg
  cases ec <;> rfl

/-! ## Claim C7 -/

/-- Decidable checker for the entity-offset invariant: every entity has
0 ≤ start ≤ end ≤ n. -/
def entityOffsetsOk (es : List ExtractedEntity) (n : Nat) : Bool :=
  es.all fun en =>
    decide (0 ≤ en.start_position) &&
    decide (en.start_position ≤ en.end_position) &&
    decide (en.end_position ≤ (n : Int))

/-- Claim C7: provided the external model returns genuine spans of the text
it is given (0 ≤ start ≤ end ≤ input length, the documented spaCy span
semantics), every entity emitted by `_extract_entities` satisfies
0 ≤ start ≤ end ≤ length of the ORIGINAL input text — the truncation to
MAX_TEXT_LENGTH only shortens the analyzed text, so offsets into it are also
valid offsets into the original. -/
theorem c7_entity_offsets_in_bounds (f : NlpModel) (cfg : Settings) (t : Str)
    (ents : List ExtractedEntity)
    (hf : ∀ s l, f s = .ok l → ∀ en ∈ l,
      0 ≤ en.start_char ∧ en.start_char ≤ en.end_char ∧
        en.end_char ≤ (s.length : Int))
    (h : _extract_entities (some f) cfg t = .ok ents) :
    entityOffsetsOk ents t.length = true := by
  simp only [_extract_entities] at h
  cases hm : f (truncateText cfg t) with
  | error e => rw [hm] at h; cases h
  | ok l =>
    rw [hm] at h
    injection h with h
    subst h
    unfold entityOffsetsOk
    rw [List.all_eq_true]
    intro x hx
    rw [List.mem_map] at hx
    obtain ⟨en, hen, rfl⟩ := hx
    have hmem : en ∈ l := (List.mem_filter.mp hen).1
    have hb := hf _ _ hm en hmem
    have hlen : ((truncateText cfg t).length : Int) ≤ (t.length : Int) := by
      unfold truncateText
      split
      · simp [List.length_take]
      · exact le_refl _
    simp only [Bool.and_eq_true, decide_eq_true_eq]
    exact ⟨⟨hb.1, hb.2.1⟩, le_trans hb.2.2 hlen⟩

/-- A model that tags the whole input as one organization span. -/
def wholeTextModel : NlpModel :=
  fun s => .ok [SpacyEnt.mk "ORG" s 0 (s.length : Int)]

/-- The entity `_extract_entities` emits for `wholeTextModel` on the
two-character text ab. -/
def wholeTextEntity : ExtractedEntity :=
  { entity_type := "ORG", entity_value := ("ab".toList),
    confidence := (8 : ℚ) / 10, start_position := 0, end_position := 2 }

/-- Claim C7, witness: the invariant checked on a concrete model and text. -/
theorem c7_witness : entityOffsetsOk [wholeTextEntity] 2 = true :=
  c7_entity_offsets_in_bounds wholeTextModel defaultSettings ("ab".toList)
    [wholeTextEntity]
    (by
      intro s l hl en hen
      injection hl with hl
      subst hl
      rw [List.mem_singleton] at hen
      subst hen
      exact ⟨le_refl 0, Int.natCast_nonneg _, le_refl _⟩)
    rfl
